import Mathlib

/-!
Shallow embedding of the `alloc-wg-benchmark` harness (`src/main.rs`).

Machine integers (`usize`) are modelled as `Nat`; the only place where
overflow can matter is the arena-capacity computation `1024 * iters` in
`main`, which is modelled with an explicit `% 2 ^ 64` (release-mode
wrapping semantics of `usize` on a 64-bit target).

Fallible operations (`expect`/`unwrap` panics, `TryInto` failures) are
modelled with `Option`/`Except`: `none` / `.error` marks the fatal path.
-/

namespace AllocBench

/-- Bit width of `usize` on the 64-bit targets the benchmark runs on. -/
def USIZE_BITS : Nat := 64

/-- The value `usize::MAX + 1`. -/
def USIZE_MOD : Nat := 2 ^ USIZE_BITS

/-- The value `isize::MAX as usize` on a 64-bit target. -/
def ISIZE_MAX : Nat := 2 ^ 63 - 1

/-- Rust `usize::is_power_of_two`: nonzero and no two bits set. -/
def isPowerOfTwo (n : Nat) : Bool := n != 0 && n &&& (n - 1) == 0

/-- Rust `std::alloc::Layout`: a size / alignment pair (both `usize`).
The invariant of the Rust type (alignment a power of two, size not overflowing
when rounded up to the alignment) is captured by `Layout.isValid` below and
enforced by the smart constructor `Layout.from_size_align`. -/
structure Layout where
  size : Nat
  align : Nat
  deriving DecidableEq, Repr

/-- The invariant `Layout::from_size_align` checks: the alignment is a
power of two and the size, rounded up to the next multiple of the
alignment, does not overflow `isize`.  (The historical bound used
`usize::MAX` instead of `isize::MAX`; both vastly exceed every size the
generator can draw, so no claim depends on the difference.) -/
def Layout.isValid (l : Layout) : Bool :=
  isPowerOfTwo l.align && l.size ≤ ISIZE_MAX - (l.align - 1)

/-- Rust `Layout::from_size_align(size, align)`: `Ok` iff the invariant holds. -/
def Layout.from_size_align (size align : Nat) : Option Layout :=
  let l : Layout := ⟨size, align⟩
  if l.isValid then some l else none

/-- Rust `alloc_wg::alloc::NonZeroLayout`: a layout whose size is nonzero. -/
structure NonZeroLayout where
  size : Nat
  align : Nat
  deriving DecidableEq, Repr

/-- Rust `impl TryFrom<Layout> for NonZeroLayout`: succeeds iff `size != 0`. -/
def tryIntoNonZero (l : Layout) : Option NonZeroLayout :=
  if l.size != 0 then some ⟨l.size, l.align⟩ else none

/-- Rust `alloc_wg::alloc::AllocErr`. -/
inductive AllocErr where
  | allocErr
  deriving DecidableEq, Repr

/-- Rust `Result<NonNull<u8>, AllocErr>`: a successful allocation carries the
numeric value of the returned address. -/
def AllocResult : Type := Except AllocErr Nat

/-- An allocator backend: the required method `alloc_non_zst` of the
`AllocRefV2` trait, over an explicit backend state (the bump arena mutates
its cursor through interior mutability; for the global allocator the
state is the heap).  The two `impl`s in the source (`&Bump<A>` and `Global`) both
forward `alloc_non_zst` to external library code (`bumpalo` / `alloc_wg`),
so the embedding quantifies over arbitrary backends. -/
structure Backend where
  State : Type
  alloc_non_zst : State → NonZeroLayout → AllocResult × State

/-- Default trait method `AllocRefV2::alloc_zst`: ignores the backend
(`self` is unused in the source) and returns
`Ok(NonNull::new_unchecked(layout.align() as *mut u8))` — the sentinel
address is the alignment value; the backend state is untouched. -/
def alloc_zst (B : Backend) (s : B.State) (l : Layout) : AllocResult × B.State :=
  (Except.ok l.align, s)

/-- Default trait method `AllocRefV2::alloc`: branch on `size == 0`;
in the nonzero branch `layout.try_into().unwrap()` can panic (`none`). -/
def alloc (B : Backend) (s : B.State) (l : Layout) : Option (AllocResult × B.State) :=
  if l.size == 0 then
    some (alloc_zst B s l)
  else
    (tryIntoNonZero l).map (fun nzl => B.alloc_non_zst s nzl)

/-- A random number generator (`rand::thread_rng()`): an abstract state
with `gen_range(lo, hi)` drawing from the half-open interval `[lo, hi)`
(the `rand 0.6` two-argument form used by the source).  Only the range
contract matters to any claim, so the distribution is left abstract. -/
structure RNG where
  State : Type
  genRange : State → Nat → Nat → Nat × State
  genRange_mem : ∀ s lo hi, lo < hi →
    lo ≤ (genRange s lo hi).1 ∧ (genRange s lo hi).1 < hi

/-- Function `make_layouts(num, is_zero)`: draw `num` layouts in order; each draw
takes `size` from `[0,1)` or `[1,1025)` and an exponent from `[0,4)`
(so `align ∈ {1,2,4,8}`), then validates with
`Layout::from_size_align(..).expect("Failed to create layout")` —
a failed validation (`none`) is the fatal `expect` panic. -/
def make_layouts (R : RNG) (s : R.State) (num : Nat) (is_zero : Bool) :
    Option (List Layout × R.State) :=
  match num with
  | 0 => some ([], s)
  | n + 1 =>
    let sz := if is_zero then R.genRange s 0 1 else R.genRange s 1 1025
    let ex := R.genRange sz.2 0 4
    match Layout.from_size_align sz.1 (2 ^ ex.1) with
    | none => none
    | some l =>
      match make_layouts R ex.2 n is_zero with
      | none => none
      | some (rest, s2) => some (l :: rest, s2)

/-- Function `test_alloc`: the timed loop — one `a.alloc(*layout)` per layout, in
sequence order, pushing every result onto the buffer.  A panic inside
`alloc` (`none`) aborts the loop. -/
def test_alloc (B : Backend) (s : B.State) (layouts : List Layout) :
    Option (List AllocResult × B.State) :=
  match layouts with
  | [] => some ([], s)
  | l :: rest =>
    match alloc B s l with
    | none => none
    | some (r, s1) =>
      match test_alloc B s1 rest with
      | none => none
      | some (rs, s2) => some (r :: rs, s2)

/-- Function `test_alloc_zst`: the timed loop calling `alloc_zst` directly.
`alloc_zst` cannot panic, so no `Option`. -/
def test_alloc_zst (B : Backend) (s : B.State) (layouts : List Layout) :
    List AllocResult × B.State :=
  match layouts with
  | [] => ([], s)
  | l :: rest =>
    let p := alloc_zst B s l
    let q := test_alloc_zst B p.2 rest
    (p.1 :: q.1, q.2)

/-- Function `test_alloc_non_zst`: the timed loop calling `alloc_non_zst` directly. -/
def test_alloc_non_zst (B : Backend) (s : B.State) (layouts : List NonZeroLayout) :
    List AllocResult × B.State :=
  match layouts with
  | [] => ([], s)
  | l :: rest =>
    let p := B.alloc_non_zst s l
    let q := test_alloc_non_zst B p.2 rest
    (p.1 :: q.1, q.2)

/-- The batch conversion in the direct non-zero path of `run_test`:
`layouts.iter().map(|l| (*l).try_into().unwrap()).collect()`; `none` is
the `unwrap` panic on some element. -/
def collectNonZero (layouts : List Layout) : Option (List NonZeroLayout) :=
  match layouts with
  | [] => some []
  | l :: rest =>
    match tryIntoNonZero l with
    | none => none
    | some nzl => (collectNonZero rest).map (fun t => nzl :: t)

/-- Function `run_test(a, iters, is_direct, is_zero)`: generate the layouts, then
drive the selected timing loop.  The result is the buffer of allocation
results together with the final backend state; `none` marks any fatal
panic (layout validation or batch conversion). -/
def run_test (B : Backend) (s : B.State) (R : RNG) (rs : R.State)
    (iters : Nat) (is_direct is_zero : Bool) :
    Option (List AllocResult × B.State) :=
  match make_layouts R rs iters is_zero with
  | none => none
  | some (layouts, _) =>
    if is_direct then
      if is_zero then
        some (test_alloc_zst B s layouts)
      else
        match collectNonZero layouts with
        | none => none
        | some nzls => some (test_alloc_non_zst B s nzls)
    else
      test_alloc B s layouts

/-! Configuration front-end: the model of `main`. -/

/-- Rust `str::parse::<usize>()`: an optional leading `+`, then at least one
ASCII digit, and the value must fit in `usize` (64 bits). -/
def parseUsize (s : String) : Option Nat :=
  let cs := s.toList
  let ds := if cs.head? = some '+' then cs.tail else cs
  if ds.isEmpty then none
  else if ds.all Char.isDigit then
    let n := ds.foldl (fun acc c => acc * 10 + (c.toNat - 48)) 0
    if n < USIZE_MOD then some n else none
  else none

/-- Rust `str::parse::<bool>()`: accepts exactly the strings
`true` and `false` — in particular it rejects `0` and `1`. -/
def parseBool (s : String) : Option Bool :=
  if s = "true" then some true
  else if s = "false" then some false
  else none

/-- The fatal-exit paths of `main`: each `expect` message, and the
`unwrap` after each `parse`. -/
inductive PanicMsg where
  | expectedIters
  | itersParseFailed
  | expectedAllocator
  | allocatorParseFailed
  | expectedDistribution
  | distributionParseFailed
  | expectedDispatch
  | dispatchParseFailed
  deriving DecidableEq, Repr

/-- The literal diagnostic attached to each `expect` in `main`
(the `unwrap` panics after `parse` carry the generic library
parse-error payload instead). -/
def panicText : PanicMsg → String
  | .expectedIters => "Expected number of iterations."
  | .expectedAllocator =>
      "Expected \x270\x27 (global) or \x271\x27 (bump) to indicate allocator type."
  | .expectedDistribution =>
      "Expected \x270\x27 (randomly distributed, non-zero allocations) or \x271\x27 (zero-sized allocations) to indicate allocator type."
  | .expectedDispatch =>
      "Expected \x270\x27 (branched) or \x271\x27 (direct) to function call type."
  | _ => "called Option::unwrap() on an Err value"

/-- The four run parameters `main` extracts from the command line. -/
structure Config where
  iters : Nat
  is_bump : Bool
  is_zero : Bool
  is_direct : Bool
  deriving DecidableEq, Repr

/-- Argument processing of `main`: `env::args().nth(k)` for k = 1..4,
each `.expect(..)` then `.parse().unwrap()`, in source order.  `args`
includes the program name at index 0, as `env::args` does. -/
def mainConfig (args : List String) : Except PanicMsg Config :=
  match args[1]? with
  | none => Except.error PanicMsg.expectedIters
  | some a1 =>
    match parseUsize a1 with
    | none => Except.error PanicMsg.itersParseFailed
    | some iters =>
      match args[2]? with
      | none => Except.error PanicMsg.expectedAllocator
      | some a2 =>
        match parseBool a2 with
        | none => Except.error PanicMsg.allocatorParseFailed
        | some is_bump =>
          match args[3]? with
          | none => Except.error PanicMsg.expectedDistribution
          | some a3 =>
            match parseBool a3 with
            | none => Except.error PanicMsg.distributionParseFailed
            | some is_zero =>
              match args[4]? with
              | none => Except.error PanicMsg.expectedDispatch
              | some a4 =>
                match parseBool a4 with
                | none => Except.error PanicMsg.dispatchParseFailed
                | some is_direct => Except.ok ⟨iters, is_bump, is_zero, is_direct⟩

/-- Process exit status: a Rust panic terminates the process with
status 101, a normal return with 0. -/
def exitStatus (r : Except PanicMsg Config) : Nat :=
  match r with
  | Except.error _ => 101
  | Except.ok _ => 0

/-- The capacity `main` passes to `Bump::with_capacity` when the bump
backend is selected: the `usize` product `1024 * iters`, which wraps
modulo `2 ^ 64` under release-mode semantics. -/
def mainBumpCapacity (iters : Nat) : Nat := 1024 * iters % USIZE_MOD

/-- The backend-construction step at the end of `main`: `some capacity`
when the bump arena is selected, `none` when the global allocator is. -/
def mainArenaCapacity (cfg : Config) : Option Nat :=
  if cfg.is_bump then some (mainBumpCapacity cfg.iters) else none

/-! Concrete instances used to evaluate the theorems on closed inputs. -/

/-- A concrete backend for instantiating backend-polymorphic theorems:
a bump-style cursor over `Nat`, always succeeding. -/
def counterBackend : Backend where
  State := Nat
  alloc_non_zst := fun s l => (Except.ok s, s + l.size)

/-- A second concrete backend, always failing, to instantiate
noninterference-style statements at two observably different backends. -/
def failingBackend : Backend where
  State := Unit
  alloc_non_zst := fun s _ => (Except.error AllocErr.allocErr, s)

/-- A concrete generator for witnesses: always returns the low end of the
requested range. -/
def rngLo : RNG where
  State := Unit
  genRange := fun s lo _ => (lo, s)
  genRange_mem := fun _ lo _ h => ⟨Nat.le_refl lo, h⟩

end AllocBench

namespace AllocBench

/-! Shared helper lemmas. -/

theorem land_four : (4 &&& 3 : Nat) = 0 := by decide

theorem land_eight : (8 &&& 7 : Nat) = 0 := by decide

/-- Every (size, alignment) pair the generator can draw passes the
`Layout::from_size_align` validation, and the alignment is in {1,2,4,8}. -/
theorem gen_layout_valid (size e : Nat) (hsize : size ≤ 1024) (he : e < 4) :
    Layout.from_size_align size (2 ^ e) = some ⟨size, 2 ^ e⟩ ∧
    (2 ^ e = 1 ∨ 2 ^ e = 2 ∨ 2 ^ e = 4 ∨ 2 ^ e = 8) := by
  interval_cases e <;>
    refine ⟨?_, by norm_num⟩ <;>
    simp [Layout.from_size_align, Layout.isValid, isPowerOfTwo, ISIZE_MAX,
      land_four, land_eight] <;>
    omega

theorem make_layouts_succ (R : RNG) (s : R.State) (n : Nat) (z : Bool) :
    make_layouts R s (n + 1) z =
      (let sz := if z then R.genRange s 0 1 else R.genRange s 1 1025
       let ex := R.genRange sz.2 0 4
       match Layout.from_size_align sz.1 (2 ^ ex.1) with
       | none => none
       | some l =>
         match make_layouts R ex.2 n z with
         | none => none
         | some (rest, s2) => some (l :: rest, s2)) := rfl

/-- The generator always succeeds, produces the requested number of
layouts, and every layout obeys the advertised size and alignment
ranges. -/
theorem make_layouts_spec (R : RNG) (z : Bool) :
    ∀ (num : Nat) (s : R.State), ∃ ls s2,
      make_layouts R s num z = some (ls, s2) ∧
      ls.length = num ∧
      ∀ l ∈ ls,
        (z = true → l.size = 0) ∧
        (z = false → 1 ≤ l.size ∧ l.size ≤ 1024) ∧
        (l.align = 1 ∨ l.align = 2 ∨ l.align = 4 ∨ l.align = 8) := by
  cases z with
  | false =>
    intro num
    induction num with
    | zero => intro s; exact ⟨[], s, rfl, rfl, by simp⟩
    | succ n ih =>
      intro s
      obtain ⟨hlo, hhi⟩ := R.genRange_mem s 1 1025 (by norm_num)
      obtain ⟨-, hex⟩ :=
        R.genRange_mem (R.genRange s 1 1025).2 0 4 (by norm_num)
      obtain ⟨hfrom, halign⟩ :=
        gen_layout_valid (R.genRange s 1 1025).1
          (R.genRange (R.genRange s 1 1025).2 0 4).1 (by omega) hex
      obtain ⟨ls, s2, hml, hlen, hmem⟩ :=
        ih (R.genRange (R.genRange s 1 1025).2 0 4).2
      refine ⟨(⟨(R.genRange s 1 1025).1,
          2 ^ (R.genRange (R.genRange s 1 1025).2 0 4).1⟩ : Layout) :: ls,
        s2, ?_, by simp [hlen], ?_⟩
      · simp [make_layouts_succ, hfrom, hml]
      · intro l hl
        rcases List.mem_cons.mp hl with h | h
        · subst h
          exact ⟨by simp, fun _ => ⟨hlo,
            show (R.genRange s 1 1025).1 ≤ 1024 by omega⟩, halign⟩
        · exact hmem l h
  | true =>
    intro num
    induction num with
    | zero => intro s; exact ⟨[], s, rfl, rfl, by simp⟩
    | succ n ih =>
      intro s
      obtain ⟨-, hhi⟩ := R.genRange_mem s 0 1 (by norm_num)
      obtain ⟨-, hex⟩ :=
        R.genRange_mem (R.genRange s 0 1).2 0 4 (by norm_num)
      obtain ⟨hfrom, halign⟩ :=
        gen_layout_valid (R.genRange s 0 1).1
          (R.genRange (R.genRange s 0 1).2 0 4).1 (by omega) hex
      obtain ⟨ls, s2, hml, hlen, hmem⟩ :=
        ih (R.genRange (R.genRange s 0 1).2 0 4).2
      refine ⟨(⟨(R.genRange s 0 1).1,
          2 ^ (R.genRange (R.genRange s 0 1).2 0 4).1⟩ : Layout) :: ls,
        s2, ?_, by simp [hlen], ?_⟩
      · simp [make_layouts_succ, hfrom, hml]
      · intro l hl
        rcases List.mem_cons.mp hl with h | h
        · subst h
          exact ⟨fun _ => show (R.genRange s 0 1).1 = 0 by omega,
            by simp, halign⟩
        · exact hmem l h

/-- The unified entry point never panics: both branches produce a value. -/
theorem alloc_isSome (B : Backend) (s : B.State) (l : Layout) :
    (alloc B s l).isSome := by
  rcases Nat.eq_zero_or_pos l.size with h | h
  · simp [alloc, h]
  · simp [alloc, tryIntoNonZero, Nat.pos_iff_ne_zero.mp h]

/-- The timed loop over `alloc` always completes and records one result
per layout. -/
theorem test_alloc_run (B : Backend) :
    ∀ (layouts : List Layout) (s : B.State), ∃ rs s2,
      test_alloc B s layouts = some (rs, s2) ∧
      rs.length = layouts.length := by
  intro layouts
  induction layouts with
  | nil => intro s; exact ⟨[], s, rfl, rfl⟩
  | cons l rest ih =>
    intro s
    obtain ⟨p, hp⟩ := Option.isSome_iff_exists.mp (alloc_isSome B s l)
    obtain ⟨r1, s1⟩ := p
    obtain ⟨rs, s2, hta, hlen⟩ := ih s1
    refine ⟨r1 :: rs, s2, ?_, by simp [hlen]⟩
    simp [test_alloc, hp, hta]

theorem test_alloc_cons_inv (B : Backend) (s : B.State) (l : Layout)
    (rest : List Layout) (rs : List AllocResult) (s2 : B.State)
    (h : test_alloc B s (l :: rest) = some (rs, s2)) :
    ∃ r s1 rs1, alloc B s l = some (r, s1) ∧
      test_alloc B s1 rest = some (rs1, s2) ∧ rs = r :: rs1 := by
  rw [test_alloc] at h
  cases ha : alloc B s l with
  | none => rw [ha] at h; simp at h
  | some p =>
    obtain ⟨r, s1⟩ := p
    rw [ha] at h
    simp only at h
    cases ht : test_alloc B s1 rest with
    | none => rw [ht] at h; simp at h
    | some q =>
      obtain ⟨rs1, s2q⟩ := q
      rw [ht] at h
      simp only [Option.some.injEq, Prod.mk.injEq] at h
      exact ⟨r, s1, rs1, rfl, by rw [ht, h.2], h.1.symm⟩

/-- Position-wise description of the timed loop: the result at index `i`
comes from the single `alloc` call on the layout at index `i`, started
from the backend state reached after the first `i` calls. -/
theorem test_alloc_index (B : Backend) :
    ∀ (i : Nat) (layouts : List Layout) (s : B.State)
      (rs : List AllocResult) (s2 : B.State),
      test_alloc B s layouts = some (rs, s2) →
      ∀ (hi : i < layouts.length) (hr : i < rs.length),
      ∃ si ri si2,
        test_alloc B s (layouts.take i) = some (rs.take i, si) ∧
        alloc B si (layouts.get ⟨i, hi⟩) = some (ri, si2) ∧
        rs.get ⟨i, hr⟩ = ri := by
  intro i
  induction i with
  | zero =>
    intro layouts s rs s2 h hi hr
    cases layouts with
    | nil => simp at hi
    | cons l rest =>
      obtain ⟨r, s1, rs1, ha, ht, hcons⟩ := test_alloc_cons_inv B s l rest rs s2 h
      subst hcons
      exact ⟨s, r, s1, by simp [test_alloc], ha, rfl⟩
  | succ n ih =>
    intro layouts s rs s2 h hi hr
    cases layouts with
    | nil => simp at hi
    | cons l rest =>
      obtain ⟨r, s1, rs1, ha, ht, hcons⟩ := test_alloc_cons_inv B s l rest rs s2 h
      subst hcons
      have hi2 : n < rest.length := by simpa using hi
      have hr2 : n < rs1.length := by simpa using hr
      obtain ⟨si, ri, si2, h1, h2, h3⟩ := ih rest s1 rs1 s2 ht hi2 hr2
      refine ⟨si, ri, si2, ?_, h2, h3⟩
      simp [List.take_succ_cons, test_alloc, ha, h1]

/-- The batch conversion succeeds on any list of strictly positive
sizes. -/
theorem collectNonZero_run :
    ∀ (ls : List Layout), (∀ l ∈ ls, 0 < l.size) →
      ∃ nz, collectNonZero ls = some nz := by
  intro ls
  induction ls with
  | nil => intro _; exact ⟨[], rfl⟩
  | cons l rest ih =>
    intro h
    have hl : l.size ≠ 0 := Nat.pos_iff_ne_zero.mp (h l (by simp))
    obtain ⟨nz, hnz⟩ := ih (fun x hx => h x (by simp [hx]))
    exact ⟨⟨l.size, l.align⟩ :: nz,
      by simp [collectNonZero, tryIntoNonZero, hl, hnz]⟩

/-- The direct non-zero path of `run_test` never panics: the generated
sizes are all positive, so every batch conversion succeeds. -/
theorem run_test_direct_nonzero_total (B : Backend) (s : B.State)
    (R : RNG) (rs : R.State) (iters : Nat) :
    (run_test B s R rs iters true false).isSome := by
  obtain ⟨ls, s2, hml, hlen, hmem⟩ := make_layouts_spec R false iters rs
  have hpos : ∀ l ∈ ls, 0 < l.size := by
    intro l hl
    have := ((hmem l hl).2.1 rfl).1
    omega
  obtain ⟨nz, hnz⟩ := collectNonZero_run ls hpos
  simp [run_test, hml, hnz]

set_option maxRecDepth 4096 in
theorem zero_sized_mentioned :
    "zero-sized".toList <:+: (panicText PanicMsg.expectedDistribution).toList := by
  decide

end AllocBench

namespace AllocBench

/-- C1: the spec (and the expect diagnostics in `main`) promise that the
literal selectors are accepted as the 2nd, 3rd and 4th arguments and
choose the corresponding modes without fatal termination.  The code
instead parses them with the Rust `bool` parser, which accepts only
`true` and `false`; the digit selectors make the `unwrap` after `parse`
panic, so the process terminates fatally (status 101) on the very
invocation the diagnostics describe. -/
theorem digit_selectors_cause_fatal_panic :
    parseBool "0" = none ∧ parseBool "1" = none ∧
    mainConfig ["bench", "1000", "0", "0", "0"] =
      Except.error PanicMsg.allocatorParseFailed ∧
    exitStatus (mainConfig ["bench", "1000", "0", "0", "0"]) = 101 :=
  ⟨rfl, rfl, rfl, rfl⟩

/-- C2: for every valid layout and any backend in any state,
`alloc_zst` returns a success whose address value is exactly the
requested alignment; that address is nonzero (non-null) and trivially
satisfies the alignment. -/
theorem alloc_zst_sentinel (B : Backend) (s : B.State) (l : Layout)
    (h : l.isValid = true) :
    (alloc_zst B s l).1 = Except.ok l.align ∧
    0 < l.align ∧ l.align % l.align = 0 := by
  refine ⟨rfl, ?_, Nat.mod_self l.align⟩
  have hpow : isPowerOfTwo l.align = true := by
    simp [Layout.isValid] at h
    exact h.1
  simp [isPowerOfTwo] at hpow
  omega

theorem alloc_zst_sentinel_check :
    (alloc_zst counterBackend (0 : Nat) ⟨0, 4⟩).1 =
      Except.ok (Layout.align ⟨0, 4⟩) ∧
    0 < Layout.align ⟨0, 4⟩ ∧
    Layout.align ⟨0, 4⟩ % Layout.align ⟨0, 4⟩ = 0 :=
  alloc_zst_sentinel counterBackend (0 : Nat) ⟨0, 4⟩ (by decide)

/-- C3: on a zero-sized layout the unified entry point `alloc` returns
exactly the value `alloc_zst` returns on that layout, for every backend
and state. -/
theorem alloc_zero_size_dispatch (B : Backend) (s : B.State) (l : Layout)
    (h : l.size = 0) :
    alloc B s l = some (alloc_zst B s l) := by
  simp [alloc, h]

theorem alloc_zero_size_dispatch_check :
    alloc counterBackend (0 : Nat) ⟨0, 8⟩ =
      some (alloc_zst counterBackend (0 : Nat) ⟨0, 8⟩) :=
  alloc_zero_size_dispatch counterBackend (0 : Nat) ⟨0, 8⟩ rfl

/-- C4: `make_layouts` returns exactly `count` layouts; in zero-sized
mode every size is 0, otherwise every size lies in [1, 1024], and in
both modes every alignment is one of 1, 2, 4, 8. -/
theorem make_layouts_count_and_ranges (R : RNG) (s : R.State)
    (count : Nat) (zero_sized : Bool) :
    ∃ ls s2, make_layouts R s count zero_sized = some (ls, s2) ∧
      ls.length = count ∧
      ∀ l ∈ ls,
        (zero_sized = true → l.size = 0) ∧
        (zero_sized = false → 1 ≤ l.size ∧ l.size ≤ 1024) ∧
        (l.align = 1 ∨ l.align = 2 ∨ l.align = 4 ∨ l.align = 8) :=
  make_layouts_spec R zero_sized count s

theorem make_layouts_count_and_ranges_check :
    ∃ ls s2, make_layouts rngLo () 3 false = some (ls, s2) ∧
      ls.length = 3 ∧
      ∀ l ∈ ls,
        (false = true → l.size = 0) ∧
        (false = false → 1 ≤ l.size ∧ l.size ≤ 1024) ∧
        (l.align = 1 ∨ l.align = 2 ∨ l.align = 4 ∨ l.align = 8) :=
  make_layouts_count_and_ranges rngLo () 3 false

/-- C5: the timing loop completes on every layout sequence and backend,
records exactly one allocation result per layout, and the result at each
index `i` is produced by the single `alloc` call on the layout at index
`i`, issued from the state reached after the first `i` calls — so a
failed result never aborts the loop or changes which later allocations
are attempted. -/
theorem test_alloc_records_every_result (B : Backend) (s : B.State)
    (layouts : List Layout) :
    ∃ rs s2, test_alloc B s layouts = some (rs, s2) ∧
      rs.length = layouts.length ∧
      ∀ (i : Nat) (hi : i < layouts.length) (hr : i < rs.length),
        ∃ si ri si2,
          test_alloc B s (layouts.take i) = some (rs.take i, si) ∧
          alloc B si (layouts.get ⟨i, hi⟩) = some (ri, si2) ∧
          rs.get ⟨i, hr⟩ = ri := by
  obtain ⟨rs, s2, h, hlen⟩ := test_alloc_run B layouts s
  exact ⟨rs, s2, h, hlen,
    fun i hi hr => test_alloc_index B i layouts s rs s2 h hi hr⟩

theorem test_alloc_records_every_result_check :
    ∃ rs s2, test_alloc failingBackend () [⟨0, 8⟩, ⟨5, 2⟩] = some (rs, s2) ∧
      rs.length = ([⟨0, 8⟩, ⟨5, 2⟩] : List Layout).length ∧
      ∀ (i : Nat) (hi : i < ([⟨0, 8⟩, ⟨5, 2⟩] : List Layout).length)
        (hr : i < rs.length),
        ∃ si ri si2,
          test_alloc failingBackend () (([⟨0, 8⟩, ⟨5, 2⟩] : List Layout).take i) =
            some (rs.take i, si) ∧
          alloc failingBackend si (([⟨0, 8⟩, ⟨5, 2⟩] : List Layout).get ⟨i, hi⟩) =
            some (ri, si2) ∧
          rs.get ⟨i, hr⟩ = ri :=
  test_alloc_records_every_result failingBackend () [⟨0, 8⟩, ⟨5, 2⟩]

/-- C6: when the first two positional arguments are present and parse
but the 3rd (the size-distribution selector) is missing, `main` dies on
the corresponding `expect`: a fatal termination with nonzero exit status
whose diagnostic names the two distribution options (in particular the
text `zero-sized` occurs in it). -/
theorem missing_distribution_fatal (args : List String) (a1 a2 : String)
    (h1 : args[1]? = some a1) (hp1 : (parseUsize a1).isSome)
    (h2 : args[2]? = some a2) (hp2 : (parseBool a2).isSome)
    (h3 : args[3]? = none) :
    mainConfig args = Except.error PanicMsg.expectedDistribution ∧
    exitStatus (mainConfig args) ≠ 0 ∧
    "zero-sized".toList <:+: (panicText PanicMsg.expectedDistribution).toList := by
  obtain ⟨n, hn⟩ := Option.isSome_iff_exists.mp hp1
  obtain ⟨b, hb⟩ := Option.isSome_iff_exists.mp hp2
  have hmc : mainConfig args = Except.error PanicMsg.expectedDistribution := by
    simp [mainConfig, h1, hn, h2, hb, h3]
  exact ⟨hmc, by rw [hmc]; simp [exitStatus], zero_sized_mentioned⟩

theorem missing_distribution_fatal_check :
    mainConfig ["bench", "1000", "true"] =
      Except.error PanicMsg.expectedDistribution ∧
    exitStatus (mainConfig ["bench", "1000", "true"]) ≠ 0 ∧
    "zero-sized".toList <:+: (panicText PanicMsg.expectedDistribution).toList :=
  missing_distribution_fatal ["bench", "1000", "true"] "1000" "true"
    rfl rfl rfl rfl rfl

/-- C7: every (size, alignment) pair the random draws can produce
(size 0 or in [1,1024], alignment a power of two with exponent below 4)
passes the layout validation, and consequently the fatal
`Failed to create layout` branch inside `make_layouts` is unreachable:
the generator always returns a value. -/
theorem layout_validation_never_fails :
    (∀ (size e : Nat), size ≤ 1024 → e < 4 →
      (Layout.from_size_align size (2 ^ e)).isSome) ∧
    ∀ (R : RNG) (s : R.State) (count : Nat) (zero_sized : Bool),
      (make_layouts R s count zero_sized).isSome := by
  constructor
  · intro size e hs he
    rw [(gen_layout_valid size e hs he).1]
    rfl
  · intro R s count zero_sized
    obtain ⟨ls, s2, h, -, -⟩ := make_layouts_spec R zero_sized count s
    simp [h]

theorem layout_validation_never_fails_check :
    (Layout.from_size_align 1024 (2 ^ 3)).isSome ∧
    (make_layouts rngLo () 5 true).isSome :=
  ⟨layout_validation_never_fails.1 1024 3 (by decide) (by decide),
   layout_validation_never_fails.2 rngLo () 5 true⟩

/-- C8 (counterexample): the claim that the arena capacity is exactly
`1024 * n` fails at the concrete iteration count `n = 2 ^ 54`, which the
front-end accepts (it fits `usize`): the `usize` product wraps to 0. -/
theorem arena_capacity_exact_cex :
    mainConfig ["bench", "18014398509481984", "true", "false", "false"] =
      Except.ok ⟨2 ^ 54, true, false, false⟩ ∧
    mainArenaCapacity ⟨2 ^ 54, true, false, false⟩ = some 0 ∧
    (0 : Nat) ≠ 1024 * 2 ^ 54 :=
  ⟨rfl, rfl, by decide⟩

/-- C8 (amended): whenever a parsed run configuration selects the bump
arena, the arena is constructed with capacity `1024 * iters` computed in
`usize`, i.e. reduced modulo `2 ^ 64`; this equals the exact product
`1024 * iters` whenever `iters < 2 ^ 54`. -/
theorem arena_capacity_wrapped (args : List String) (cfg : Config)
    (_h : mainConfig args = Except.ok cfg) (hb : cfg.is_bump = true) :
    mainArenaCapacity cfg = some (1024 * cfg.iters % USIZE_MOD) ∧
    (cfg.iters < 2 ^ 54 → mainArenaCapacity cfg = some (1024 * cfg.iters)) := by
  refine ⟨by simp [mainArenaCapacity, hb, mainBumpCapacity], ?_⟩
  intro hlt
  have h54 : (2 : Nat) ^ 54 = 18014398509481984 := by norm_num
  have h64 : USIZE_MOD = 18446744073709551616 := by norm_num [USIZE_MOD, USIZE_BITS]
  have hsmall : 1024 * cfg.iters < USIZE_MOD := by omega
  simp [mainArenaCapacity, hb, mainBumpCapacity, Nat.mod_eq_of_lt hsmall]

theorem arena_capacity_wrapped_check :
    mainArenaCapacity ⟨500, true, true, false⟩ = some (1024 * 500) :=
  (arena_capacity_wrapped ["bench", "500", "true", "true", "false"]
    ⟨500, true, true, false⟩ rfl rfl).2 (by norm_num)

/-- C9: for every layout of positive size the conversion to
`NonZeroLayout` succeeds, so the `unwrap` after `try_into` never panics:
`alloc` in its nonzero branch always delegates to the backend, and the
batch conversion of the direct non-zero dispatch path of `run_test`
(whose layouts all come from the generator in non-zero mode) always
succeeds. -/
theorem nonzero_unwrap_never_panics :
    (∀ (B : Backend) (s : B.State) (l : Layout), 0 < l.size →
      ∃ nzl, tryIntoNonZero l = some nzl ∧
        alloc B s l = some (B.alloc_non_zst s nzl)) ∧
    ∀ (B : Backend) (s : B.State) (R : RNG) (rs : R.State) (iters : Nat),
      (run_test B s R rs iters true false).isSome := by
  constructor
  · intro B s l h
    have hne : l.size ≠ 0 := Nat.pos_iff_ne_zero.mp h
    refine ⟨⟨l.size, l.align⟩, ?_, ?_⟩
    · simp [tryIntoNonZero, hne]
    · simp [alloc, tryIntoNonZero, hne]
  · exact run_test_direct_nonzero_total

theorem nonzero_unwrap_never_panics_check :
    (∃ nzl, tryIntoNonZero ⟨16, 8⟩ = some nzl ∧
      alloc counterBackend (0 : Nat) ⟨16, 8⟩ =
        some (counterBackend.alloc_non_zst (0 : Nat) nzl)) ∧
    (run_test counterBackend (0 : Nat) rngLo () 3 true false).isSome :=
  ⟨nonzero_unwrap_never_panics.1 counterBackend (0 : Nat) ⟨16, 8⟩ (by decide),
   nonzero_unwrap_never_panics.2 counterBackend (0 : Nat) rngLo () 3⟩

/-- C10: the value `alloc_zst` returns depends only on the layout: any
two backends, in any states, produce identical result values for the
same layout. -/
theorem alloc_zst_backend_independent (B1 B2 : Backend)
    (s1 : B1.State) (s2 : B2.State) (l : Layout) :
    (alloc_zst B1 s1 l).1 = (alloc_zst B2 s2 l).1 := rfl

end AllocBench
